import Mathlib

/-!
# Verification of the MCP-PRY01 scoring/ranking engine

Shallow embedding of the restaurant scoring and ranking engine of the
repository (files `src/services/scoring.js`, `src/services/googleClient.js`,
`src/models/profile.js` and the `ranking_rank` tool `src/mcp/tools/ranking.js`).

JavaScript numbers are modelled as real numbers (`ℝ`); `null`/`undefined`
fields are modelled with `Option`.  The special JS value `NaN` is modelled
where a claim depends on it (the `topK` parameter) by the dedicated type
`JNum`.  Fallible code (`throw ValidationError`) is modelled with `Except`.
-/

set_option maxHeartbeats 1000000

noncomputable section

open Real

/-- A coordinate pair `{lat, lng}`. -/
structure LatLng where
  lat : ℝ
  lng : ℝ

/-- A monetary budget `{amount, currency}` (`maxBudget` in a profile).
`currency` is accepted and ignored by the code (see `budgetToAllowedLevels`). -/
structure Budget where
  amount : ℝ
  currency : Option String

/-- The normalized `Place` record produced by the provider client and consumed
read-only by the engine (`src/models/place.js`).  All fields other than
`placeId` may be absent. -/
structure Place where
  placeId : String
  name : Option String
  rating : Option ℝ
  userRatingCount : Option ℕ
  priceLevel : Option String
  location : Option LatLng
  openNow : Option Bool
  types : List String
  primaryType : Option String
  summary : Option String
  website : Option String
  phone : Option String

/-- A normalized user profile (output of `normalizeProfile`, or any object a
caller hands to `scorePlace`).  `priceLevels` entries are ordinal levels; the
data model (§3) restricts them to integers in `[0,4]`, so they are carried as
naturals.  `maxBudget` is carried on the object; `scoring.js`'s `scorePlace`
never destructures it while `googleClient.js`'s does. -/
structure Profile where
  keywords : List String
  priceLevels : List ℕ
  minRating : ℝ
  requireOpen : Bool
  maxDistanceKm : ℝ
  maxBudget : Option Budget

/-- A JS number: a real value or `NaN`. -/
inductive JNum where
  | real (x : ℝ)
  | nan

/-- JS `ToIntegerOrInfinity` truncation toward zero (`NaN` becomes 0). -/
def jsTrunc (x : ℝ) : ℤ := if x < 0 then Int.ceil x else Int.floor x

/-- How many leading elements `arr.slice(0, topK)` keeps from an array of
length `len`: `NaN` yields 0; a negative end counts from the end of the
array; the result is clamped to `[0, len]`. -/
def sliceEnd (len : ℕ) : JNum → ℕ
  | .nan => 0
  | .real x =>
    let t := jsTrunc x
    let e := if t < 0 then (len : ℤ) + t else t
    (min (max e 0) (len : ℤ)).toNat

/-- A candidate with its attached `score` and `why` (the JS object spread
`\x7b ...p, score, why \x7d`). -/
structure ScoredPlace where
  place : Place
  score : ℝ
  why : String

namespace Scoring

/-- Two-argument arctangent, as JS `Math.atan2(y, x)` (standard mathematical
atan2; `Math.atan2(0, 0) = 0`). -/
def atan2 (y x : ℝ) : ℝ :=
  if 0 < x then Real.arctan (y / x)
  else if x < 0 then
    (if 0 ≤ y then Real.arctan (y / x) + Real.pi else Real.arctan (y / x) - Real.pi)
  else
    (if 0 < y then Real.pi / 2 else if y < 0 then -(Real.pi / 2) else 0)

/-- `haversineKm(a, b)` from `scoring.js` lines 2-16 (an identical copy lives
in `googleClient.js` lines 427-441): great-circle distance in km, Earth radius
6371; returns `null` when either point is missing. -/
def haversineKm : Option LatLng → Option LatLng → Option ℝ
  | some a, some b =>
    let R : ℝ := 6371
    let dLat := (b.lat - a.lat) * Real.pi / 180
    let dLon := (b.lng - a.lng) * Real.pi / 180
    let lat1 := a.lat * Real.pi / 180
    let lat2 := b.lat * Real.pi / 180
    let sinDLat := Real.sin (dLat / 2)
    let sinDLon := Real.sin (dLon / 2)
    let h := sinDLat * sinDLat + Real.cos lat1 * Real.cos lat2 * sinDLon * sinDLon
    let c := 2 * atan2 (Real.sqrt h) (Real.sqrt (1 - h))
    some (R * c)
  | _, _ => none

/-- The `PriceMap` table, `level` component: `PRICE_LEVEL_*` to ordinal 0-4. -/
def PriceMapLevel (s : String) : Option ℕ :=
  if s = "PRICE_LEVEL_FREE" then some 0
  else if s = "PRICE_LEVEL_INEXPENSIVE" then some 1
  else if s = "PRICE_LEVEL_MODERATE" then some 2
  else if s = "PRICE_LEVEL_EXPENSIVE" then some 3
  else if s = "PRICE_LEVEL_VERY_EXPENSIVE" then some 4
  else none

/-- The `PriceMap` table, `symbol` component. -/
def PriceMapSymbol (s : String) : Option String :=
  if s = "PRICE_LEVEL_FREE" then some "$"
  else if s = "PRICE_LEVEL_INEXPENSIVE" then some "$"
  else if s = "PRICE_LEVEL_MODERATE" then some "$$"
  else if s = "PRICE_LEVEL_EXPENSIVE" then some "$$$"
  else if s = "PRICE_LEVEL_VERY_EXPENSIVE" then some "$$$$"
  else none

/-- `priceToLevel`: `null`/empty (falsy) or unknown category maps to `null`. -/
def priceToLevel : Option String → Option ℕ
  | none => none
  | some s => if s = "" then none else PriceMapLevel s

/-- `priceToSymbol`: falsy or unknown category maps to the dash. -/
def priceToSymbol : Option String → String
  | none => "–"
  | some s => if s = "" then "–" else (PriceMapSymbol s).getD "–"

/-- `matchAt needle hay` is true when `needle` is an initial segment of
`hay` (character-list form; helper for the JS `String.prototype.includes`). -/
def matchAt : List Char → List Char → Bool
  | [], _ => true
  | _ :: _, [] => false
  | c :: cs, d :: ds => c = d && matchAt cs ds

/-- `occursIn needle hay`: `needle` occurs contiguously somewhere in `hay`
(JS `hay.includes(needle)`). -/
def occursIn (needle : List Char) : List Char → Bool
  | [] => needle.isEmpty
  | d :: ds => matchAt needle (d :: ds) || occursIn needle ds

/-- JS `bag.includes(k)` on strings. -/
def strIncludes (bag k : String) : Bool := occursIn k.data bag.data

/-- The lowercase search bag of `keywordMatch`:
`[name, ...types, summary, primaryType].join(' ').toLowerCase()`. -/
def bagOf (place : Place) : String :=
  (String.intercalate " "
    ([place.name.getD ""] ++ place.types ++ [place.summary.getD "", place.primaryType.getD ""])).toLower

/-- The hit count of `keywordMatch`: keywords are lowercased and trimmed,
empty ones are skipped, each remaining one that occurs in the bag counts 1. -/
def kwHits (bag : String) : List String → ℕ
  | [] => 0
  | kw :: rest =>
    let k := kw.toLower.trim
    (if k ≠ "" ∧ strIncludes bag k then 1 else 0) + kwHits bag rest

/-- `keywordMatch(place, keywords)` from `scoring.js` lines 42-60: 0 when no
keywords, else `hits / keywords.length` (the denominator counts all keywords,
including ones skipped as empty). -/
def keywordMatch (place : Place) (keywords : List String) : ℝ :=
  if keywords.isEmpty then 0
  else (kwHits (bagOf place) keywords : ℝ) / (keywords.length : ℝ)

/-- `priceMatch(place, allowedLevels)` from `scoring.js` lines 62-67 (the
two-argument version, no budget). -/
def priceMatch (place : Place) (allowedLevels : List ℕ) : ℝ :=
  if allowedLevels.isEmpty then 1
  else
    match priceToLevel place.priceLevel with
    | none => 0.5
    | some lvl => if allowedLevels.contains lvl then 1 else 0

/-- `qualityScore(rating, reviews)` from `scoring.js` lines 69-75.  The JS
guard `!rating` is falsy for `null` and for `0`. -/
def qualityScore (rating : Option ℝ) (reviews : Option ℕ) : ℝ :=
  match rating with
  | none => 0
  | some rt =>
    if rt = 0 then 0
    else
      let r := min (max rt 0) 5
      let conf := Real.logb 10 ((reviews.getD 0 : ℝ) + 1) / 3
      (r / 5) * min conf 1

/-- `openScore(openNow, requireOpen)` from `scoring.js` lines 77-82. -/
def openScore (openNow : Option Bool) (requireOpen : Bool) : ℝ :=
  if !requireOpen then 1
  else
    match openNow with
    | some true => 1
    | some false => 0
    | none => 0.6

/-- `distanceScore(km, maxKm)` from `scoring.js` lines 84-90.  The very-near
plateau `km ≤ 0.25` is tested before the `km ≥ maxKm` floor. -/
def distanceScore (km : Option ℝ) (maxKm : ℝ) : ℝ :=
  match km with
  | none => 0.6
  | some k =>
    if k ≤ 0.25 then 1
    else if maxKm ≤ k then 0.1
    else 1 - (k / maxKm) * 0.9

/-- JS `Math.round` (round half up), as Mathlib `round`. -/
def jsRound (x : ℝ) : ℤ := round x

/-- JS `x.toFixed(1)` for the nonnegative magnitudes the explainer renders
(ratings 0-5, distances): one decimal digit, rounding to the nearest tenth. -/
def jsToFixed1 (x : ℝ) : String :=
  let n := round (x * 10)
  toString (n / 10) ++ "." ++ toString (n % 10)

/-- The context record handed by `scorePlace` to `buildWhy` (`scoring.js`
lines 141-150); `buildWhy` only reads `km`, `sKeyword` and `keywords`, the
remaining fields are passed along unread. -/
structure WhyCtx where
  km : Option ℝ
  sKeyword : ℝ
  sPrice : ℝ
  sQual : ℝ
  sDist : ℝ
  sOpen : ℝ
  minRating : ℝ
  keywords : List String

/-- `buildWhy(place, ctx)` from `scoring.js` lines 155-183: the short
delimiter-joined explanation string.  Every pushed bit is a nonempty string,
so the JS `filter(Boolean)` is the identity here. -/
def buildWhy (place : Place) (ctx : WhyCtx) : String :=
  let priceSym := priceToSymbol place.priceLevel
  let bits₁ : List String := if priceSym ≠ "–" then [priceSym] else []
  let bits₂ : List String :=
    match place.rating with
    | some r =>
      let reviews :=
        match place.userRatingCount with
        | some c => if c ≠ 0 then " (" ++ toString c ++ " reseñas)" else ""
        | none => ""
      [jsToFixed1 r ++ "★" ++ reviews]
    | none => []
  let bits₃ : List String :=
    match ctx.km with
    | some km =>
      let distTxt := if km < 1 then toString (jsRound (km * 1000)) ++ " m"
                     else jsToFixed1 km ++ " km"
      ["a " ++ distTxt]
    | none => []
  let bits₄ : List String :=
    if ctx.keywords.isEmpty then []
    else
      let kMatchPct := jsRound (ctx.sKeyword * 100)
      if 50 ≤ kMatchPct then
        ["match gustos " ++ toString kMatchPct ++ "% (" ++
          String.intercalate ", " ctx.keywords ++ ")"]
      else []
  let bits₅ : List String := if place.openNow = some true then ["abierto ahora"] else []
  String.intercalate " · " (bits₁ ++ bits₂ ++ bits₃ ++ bits₄ ++ bits₅)

/-- `scorePlace(place, profile, origin)` from `scoring.js` lines 102-153:
weighted aggregation of the five signals with the rating-penalty multiplier,
returning `(score, why)`.  This version never reads `profile.maxBudget`. -/
def scorePlace (place : Place) (profile : Profile) (origin : Option LatLng) : ℝ × String :=
  let km := haversineKm origin place.location
  let sKeyword := keywordMatch place profile.keywords
  let sPrice := priceMatch place profile.priceLevels
  let sQual := qualityScore place.rating place.userRatingCount
  let sOpen := openScore place.openNow profile.requireOpen
  let sDist := distanceScore km profile.maxDistanceKm
  let ratingPenalty : ℝ :=
    match place.rating with
    | some rt => if rt < profile.minRating then 0.6 else 1
    | none => 1
  let score :=
    (0.30 * sKeyword + 0.15 * sPrice + 0.30 * sQual + 0.15 * sDist + 0.10 * sOpen) *
      ratingPenalty
  (score, buildWhy place
    ⟨km, sKeyword, sPrice, sQual, sDist, sOpen, profile.minRating, profile.keywords⟩)

/-- Insert into a descending-by-score list, before the first element whose
score is `≤` the inserted one (so equal scores keep input order). -/
def insertDesc (x : ScoredPlace) : List ScoredPlace → List ScoredPlace
  | [] => [x]
  | y :: ys => if y.score ≤ x.score then x :: y :: ys else y :: insertDesc x ys

/-- The stable descending sort performed by
`.sort((a, b) => b.score - a.score)` (ECMAScript `Array.prototype.sort` is
stable; a stable sort's output is uniquely determined by the score order and
the input order, so insertion sort reproduces it). -/
def sortByScoreDesc : List ScoredPlace → List ScoredPlace
  | [] => []
  | x :: xs => insertDesc x (sortByScoreDesc xs)

/-- The per-candidate map of `rankAndExplain`: score each place and attach
`score` and `why` to a copy. -/
def scoredList (candidates : List Place) (profile : Profile) (origin : Option LatLng) :
    List ScoredPlace :=
  candidates.map fun p =>
    let r := scorePlace p profile origin
    ⟨p, r.1, r.2⟩

/-- `rankAndExplain(candidates, profile, origin, topK)` from `scoring.js`
lines 192-201: score every candidate, sort descending by score, truncate with
`slice(0, topK)`. -/
def rankAndExplain (candidates : List Place) (profile : Profile) (origin : Option LatLng)
    (topK : JNum) : List ScoredPlace :=
  let scored := sortByScoreDesc (scoredList candidates profile origin)
  scored.take (sliceEnd scored.length topK)

end Scoring

namespace GClient

/-!
`src/services/googleClient.js` contains verbatim copies of `haversineKm`,
`PriceMap`, `priceToLevel`, `priceToSymbol`, `keywordMatch`, `qualityScore`,
`openScore`, `distanceScore` and `buildWhy` (lines 427-579 and 643 ff.); those
are shared from the `Scoring` namespace above.  The functions below are the
ones specific to this file: the budget tiering and the three-argument
`priceMatch`, and the `scorePlace` that reads `maxBudget`.
-/

/-- `budgetToAllowedLevels(maxBudget)` from `googleClient.js` lines 481-496:
heuristic tier table mapping a budget amount to accepted ordinal levels.  The
`currency` field is read but has no effect (both branches pick the same
table); `null` or a non-positive amount means no budget constraint.  The JS
guard `!maxBudget?.amount` is also falsy for amount 0, which the `amount <= 0`
test covers. -/
def budgetToAllowedLevels : Option Budget → Option (List ℕ)
  | none => none
  | some b =>
    if b.amount ≤ 0 then none
    else if b.amount ≤ 50 then some [0, 1]
    else if b.amount ≤ 100 then some [1, 2]
    else if b.amount ≤ 200 then some [2, 3]
    else some [3, 4]

/-- The staged construction of the `effective` set inside `priceMatch`
(`googleClient.js` lines 530-538): start from the explicit levels when
nonempty, then intersect with the budget levels when those are present and
nonempty (or adopt them when there were no explicit levels). -/
def priceEffective (allowedLevels : List ℕ) (budgetLevels : Option (List ℕ)) :
    Option (List ℕ) :=
  let effective₀ : Option (List ℕ) :=
    if allowedLevels.isEmpty then none else some allowedLevels
  match budgetLevels with
  | some bl =>
    if bl.isEmpty then effective₀
    else
      match effective₀ with
      | some e => some (e.filter fun x => bl.contains x)
      | none => some bl
  | none => effective₀

/-- `priceMatch(place, allowedLevels, budgetLevels)` from `googleClient.js`
lines 528-545: builds the effective allowed set, scores 1 when there is no
effective constraint or the effective set is empty, else 0.5 / 1 / 0 by the
candidate's ordinal level.  JS `Set` membership is modelled by list
membership (duplicates and insertion order do not affect any observable of
this function). -/
def priceMatch (place : Place) (allowedLevels : List ℕ) (budgetLevels : Option (List ℕ)) : ℝ :=
  match priceEffective allowedLevels budgetLevels with
  | none => 1
  | some e =>
    if e.isEmpty then 1
    else
      match Scoring.priceToLevel place.priceLevel with
      | none => 0.5
      | some lvl => if e.contains lvl then 1 else 0

/-- `scorePlace(place, profile, origin)` from `googleClient.js` lines
590-641: identical to the `scoring.js` aggregator except that it also
destructures `maxBudget` and feeds `budgetToAllowedLevels` into the
three-argument `priceMatch`. -/
def scorePlace (place : Place) (profile : Profile) (origin : Option LatLng) : ℝ × String :=
  let km := Scoring.haversineKm origin place.location
  let budgetLevels := budgetToAllowedLevels profile.maxBudget
  let sKeyword := Scoring.keywordMatch place profile.keywords
  let sPrice := priceMatch place profile.priceLevels budgetLevels
  let sQual := Scoring.qualityScore place.rating place.userRatingCount
  let sOpen := Scoring.openScore place.openNow profile.requireOpen
  let sDist := Scoring.distanceScore km profile.maxDistanceKm
  let ratingPenalty : ℝ :=
    match place.rating with
    | some rt => if rt < profile.minRating then 0.6 else 1
    | none => 1
  let score :=
    (0.30 * sKeyword + 0.15 * sPrice + 0.30 * sQual + 0.15 * sDist + 0.10 * sOpen) *
      ratingPenalty
  (score, Scoring.buildWhy place
    ⟨km, sKeyword, sPrice, sQual, sDist, sOpen, profile.minRating, profile.keywords⟩)

end GClient

/-- A raw `priceLevels` entry handed to `normalizeProfile`: a JS number (the
data model §3 restricts levels to integers in `[0,4]`, carried as naturals),
a string (to be mapped through `priceToLevel`), or any other value (mapped to
`null` and filtered out). -/
inductive RawPriceEntry where
  | numLv (n : ℕ)
  | strLv (s : String)
  | otherLv

/-- A raw caller-supplied profile as `normalizeProfile` receives it.
`none` on `keywords`/`priceLevels` models a missing or non-array value;
`none` on `minRating`/`maxDistanceKm` models a missing or non-number value;
`requireOpen` carries the truthiness JS `Boolean(...)` extracts.  Keyword
entries are strings (JS `String(...)` on a string is the identity). -/
structure RawProfile where
  keywords : Option (List String)
  priceLevels : Option (List RawPriceEntry)
  minRating : Option ℝ
  requireOpen : Bool
  maxDistanceKm : Option ℝ
  maxBudget : Option Budget

/-- `normalizeProfile(profile)` from `src/models/profile.js` lines 27-53:
fills defaults and converts string price levels.  The returned object has no
`maxBudget` key, so the normalized profile carries `none` there. -/
def normalizeProfile (p : RawProfile) : Profile where
  keywords := p.keywords.getD []
  priceLevels :=
    (p.priceLevels.getD []).filterMap fun e =>
      match e with
      | .numLv n => some n
      | .strLv s => Scoring.priceToLevel (some s)
      | .otherLv => none
  minRating := p.minRating.getD 0
  requireOpen := p.requireOpen
  maxDistanceKm := p.maxDistanceKm.getD 3
  maxBudget := none

namespace Ranking

/-- The `candidates` parameter of the `ranking_rank` tool: an array of
normalized places, or any non-array value (which `Array.isArray` rejects). -/
inductive CandParam where
  | arr (cs : List Place)
  | notArr

/-- The `origin` parameter: `missing` for a falsy value (absent, `null`, ...);
`objP la ln` for a truthy value whose `lat`/`lng` reads give a number
(`some`) or anything else (`none` — absent, non-numeric, or the value was not
an object at all so destructuring gave `undefined`). -/
inductive OriginParam where
  | missing
  | objP (lat lng : Option ℝ)

/-- The `topK` parameter: absent (defaults to 10), a JS number (possibly
`NaN`), or a non-number value. -/
inductive TopKParam where
  | missing
  | num (k : JNum)
  | other

/-- The `ValidationError` thrown by the tool (message only; the class carries
fixed code/status metadata). -/
structure ValidationError where
  message : String

/-- `assertCandidates` (`ranking.js` lines 17-21). -/
def assertCandidates : CandParam → Except ValidationError (List Place)
  | .arr cs => .ok cs
  | .notArr => .error ⟨"\"candidates\" debe ser un array de lugares normalizados"⟩

/-- `normalizeOrigin` (`ranking.js` lines 32-39): falsy origin becomes
`null`; a present origin must read numeric `lat` and `lng`. -/
def normalizeOrigin : OriginParam → Except ValidationError (Option LatLng)
  | .missing => .ok none
  | .objP (some la) (some ln) => .ok (some ⟨la, ln⟩)
  | .objP _ _ => .error ⟨"\"origin\" debe tener \x7b lat:number, lng:number \x7d"⟩

/-- The `topK` guard (`ranking.js` lines 79-81):
`typeof topK !== 'number' || topK <= 0` throws.  `NaN` is a number and
`NaN <= 0` is false, so `NaN` passes the guard. -/
def checkTopK : TopKParam → Except ValidationError JNum
  | .missing => .ok (.real 10)
  | .num (.real x) =>
    if x ≤ 0 then .error ⟨"\"topK\" debe ser un número positivo"⟩ else .ok (.real x)
  | .num .nan => .ok .nan
  | .other => .error ⟨"\"topK\" debe ser un número positivo"⟩

/-- One serialized item of the tool response (`ranking.js` lines 103-117). -/
structure RankItem where
  placeId : String
  name : Option String
  rating : Option ℝ
  userRatingCount : Option ℕ
  priceLevel : Option String
  location : Option LatLng
  openNow : Option Bool
  score : ℝ
  why : String
  website : Option String
  phone : Option String
  types : List String
  primaryType : Option String

/-- The tool response `\x7b total, returned, items \x7d`. -/
structure RankResult where
  total : ℕ
  returned : ℕ
  items : List RankItem

/-- `Number(p.score.toFixed(4))`: the score rounded to 4 decimal places for
presentation. -/
def roundTo4 (x : ℝ) : ℝ := (round (x * 10000) : ℝ) / 10000

/-- The per-item projection of the tool response. -/
def toItem (p : ScoredPlace) : RankItem where
  placeId := p.place.placeId
  name := p.place.name
  rating := p.place.rating
  userRatingCount := p.place.userRatingCount
  priceLevel := p.place.priceLevel
  location := p.place.location
  openNow := p.place.openNow
  score := roundTo4 p.score
  why := p.why
  website := p.place.website
  phone := p.place.phone
  types := p.place.types
  primaryType := p.place.primaryType

/-- The empty raw profile standing for the JS literal passed when the
`profile` parameter is absent (`profile || \x7b\x7d`). -/
def emptyRawProfile : RawProfile := ⟨none, none, none, false, none, none⟩

/-- The `ranking_rank` tool, `rank(params)` from `src/mcp/tools/ranking.js`
lines 72-119: validate `candidates`, normalize the profile, validate
`origin`, validate `topK`, then delegate to `rankAndExplain` and serialize.
Logging calls are side-effect only and are not modelled. -/
def rank (candidates : CandParam) (profile : Option RawProfile) (origin : OriginParam)
    (topK : TopKParam) : Except ValidationError RankResult :=
  match assertCandidates candidates with
  | .error e => .error e
  | .ok cs =>
    let normProfile := normalizeProfile (profile.getD emptyRawProfile)
    match normalizeOrigin origin with
    | .error e => .error e
    | .ok normOrigin =>
      match checkTopK topK with
      | .error e => .error e
      | .ok k =>
        let ranked := Scoring.rankAndExplain cs normProfile normOrigin k
        .ok ⟨cs.length, ranked.length, ranked.map toItem⟩

end Ranking

/-- A candidate with every optional field absent, used by the
missing-data-neutrality claim. -/
def nullPlace : Place :=
  ⟨"p-null", none, none, none, none, none, none, [], none, none, none, none⟩

/-- The price signal as the spec words it (§4.3): score computed from the
*effective allowed set*, the intersection of `priceLevels` (when non-empty)
and `budgetLevels` (when present); both empty/absent means no constraint
(score 1), an empty effective set scores 1 for every candidate, otherwise an
unknown candidate level scores 0.5, a level in the set 1, and any other
level 0.  Stated for comparison with `GClient.priceMatch`. -/
def priceScoreSpec (place : Place) (priceLevels : List ℕ)
    (budgetLevels : Option (List ℕ)) : ℝ :=
  if priceLevels.isEmpty ∧ budgetLevels = none then 1
  else
    let eff : List ℕ :=
      match budgetLevels with
      | none => priceLevels
      | some bl =>
        if priceLevels.isEmpty then bl else priceLevels.filter fun x => bl.contains x
    if eff.isEmpty then 1
    else
      match Scoring.priceToLevel place.priceLevel with
      | none => 0.5
      | some lvl => if eff.contains lvl then 1 else 0

/-- The sublist of a scored list carrying exactly the score `s` (classical
real-number equality); used to state the stable tie-break of the sort. -/
def atScore (s : ℝ) (l : List ScoredPlace) : List ScoredPlace :=
  l.filter fun p => decide (p.score = s)

/-- `topK` is a positive number in the claim's sense: a (real) number that is
strictly positive.  `NaN` is a JS number but is not positive. -/
def topKPositiveNumber : Ranking.TopKParam → Prop
  | .num (.real x) => 0 < x
  | _ => False

/-- The `origin` parameter is acceptable to the tool: absent/falsy, or an
object with numeric `lat` and `lng`. -/
def originWellFormed : Ranking.OriginParam → Prop
  | .missing => True
  | .objP (some _) (some _) => True
  | .objP _ _ => False

/-- The `topK` values the tool's guard actually rejects: non-numbers, and
numbers `x` with `x ≤ 0`.  (`NaN` is not rejected because `NaN <= 0` is
false in JS; a missing `topK` defaults to 10 and is not rejected.) -/
def topKRejected : Ranking.TopKParam → Prop
  | .num (.real x) => x ≤ 0
  | .other => True
  | _ => False

end

/-! ## Signal bound lemmas -/

namespace Scoring

theorem kwHits_le_length (bag : String) (kws : List String) :
    kwHits bag kws ≤ kws.length := by
  induction kws with
  | nil => simp [kwHits]
  | cons kw rest ih =>
    simp only [kwHits, List.length_cons]
    split <;> omega

theorem keywordMatch_bounds (place : Place) (kws : List String) :
    0 ≤ keywordMatch place kws ∧ keywordMatch place kws ≤ 1 := by
  unfold keywordMatch
  split
  · norm_num
  · rename_i h
    have hlen : 0 < (kws.length : ℝ) := by
      have : kws ≠ [] := by simpa [List.isEmpty_iff] using h
      have : 0 < kws.length := List.length_pos.2 this
      exact_mod_cast this
    constructor
    · positivity
    · rw [div_le_one hlen]
      exact_mod_cast kwHits_le_length (bagOf place) kws

theorem priceMatch_bounds (place : Place) (lvls : List ℕ) :
    0 ≤ priceMatch place lvls ∧ priceMatch place lvls ≤ 1 := by
  unfold priceMatch
  split
  · norm_num
  · split <;> [norm_num; split <;> norm_num]

theorem qualityScore_bounds (rating : Option ℝ) (reviews : Option ℕ) :
    0 ≤ qualityScore rating reviews ∧ qualityScore rating reviews ≤ 1 := by
  unfold qualityScore
  match rating with
  | none => norm_num
  | some rt =>
    simp only
    split
    · norm_num
    · have hr0 : (0 : ℝ) ≤ min (max rt 0) 5 := le_min (le_max_right rt 0) (by norm_num)
      have hr5 : min (max rt 0) 5 ≤ 5 := min_le_right _ _
      have hconf0 : (0 : ℝ) ≤ Real.logb 10 ((reviews.getD 0 : ℝ) + 1) / 3 := by
        have h1 : (1 : ℝ) ≤ (reviews.getD 0 : ℝ) + 1 := by
          linarith [Nat.cast_nonneg (α := ℝ) (reviews.getD 0)]
        have := Real.logb_nonneg (by norm_num : (1 : ℝ) < 10) h1
        linarith
      constructor
      · apply mul_nonneg (by linarith) (le_min hconf0 (by norm_num))
      · apply mul_le_one₀ (by linarith) (le_min hconf0 (by norm_num)) (min_le_right _ _)

theorem openScore_bounds (openNow : Option Bool) (requireOpen : Bool) :
    0 ≤ openScore openNow requireOpen ∧ openScore openNow requireOpen ≤ 1 := by
  unfold openScore
  split
  · norm_num
  · match openNow with
    | some true => norm_num
    | some false => norm_num
    | none => norm_num

theorem distanceScore_bounds (km : Option ℝ) (maxKm : ℝ) :
    0 ≤ distanceScore km maxKm ∧ distanceScore km maxKm ≤ 1 := by
  unfold distanceScore
  match km with
  | none => norm_num
  | some k =>
    simp only
    split
    · norm_num
    · split
      · norm_num
      · rename_i h1 h2
        push_neg at h1 h2
        have hmax : (0 : ℝ) < maxKm := lt_trans (by norm_num) (lt_trans h1 h2)
        have hq0 : (0 : ℝ) ≤ k / maxKm := le_of_lt (div_pos (by linarith) hmax)
        have hq1 : k / maxKm ≤ 1 := le_of_lt ((div_lt_one hmax).2 h2)
        constructor <;> nlinarith

/-- The weighted sum of five signals, each in `[0, 1]`, multiplied by a
penalty that is `0.6` or `1`, lies in `[0, 1]`. -/
theorem weighted_score_bounds {sK sP sQ sD sO pen : ℝ}
    (hK : 0 ≤ sK ∧ sK ≤ 1) (hP : 0 ≤ sP ∧ sP ≤ 1) (hQ : 0 ≤ sQ ∧ sQ ≤ 1)
    (hD : 0 ≤ sD ∧ sD ≤ 1) (hO : 0 ≤ sO ∧ sO ≤ 1) (hpen : pen = 0.6 ∨ pen = 1) :
    0 ≤ (0.30 * sK + 0.15 * sP + 0.30 * sQ + 0.15 * sD + 0.10 * sO) * pen ∧
      (0.30 * sK + 0.15 * sP + 0.30 * sQ + 0.15 * sD + 0.10 * sO) * pen ≤ 1 := by
  obtain ⟨hK0, hK1⟩ := hK
  obtain ⟨hP0, hP1⟩ := hP
  obtain ⟨hQ0, hQ1⟩ := hQ
  obtain ⟨hD0, hD1⟩ := hD
  obtain ⟨hO0, hO1⟩ := hO
  rcases hpen with h | h <;> subst h <;> constructor <;> nlinarith

/-- `scorePlace`'s score component written out (definitional). -/
theorem scorePlace_fst (p : Place) (pr : Profile) (o : Option LatLng) :
    (scorePlace p pr o).1 =
      (0.30 * keywordMatch p pr.keywords + 0.15 * priceMatch p pr.priceLevels +
        0.30 * qualityScore p.rating p.userRatingCount +
        0.15 * distanceScore (haversineKm o p.location) pr.maxDistanceKm +
        0.10 * openScore p.openNow pr.requireOpen) *
      (match p.rating with
        | some rt => if rt < pr.minRating then (0.6 : ℝ) else 1
        | none => 1) := rfl

/-- The rating-penalty multiplier is always `0.6` or `1`. -/
theorem ratingPenalty_cases (r : Option ℝ) (m : ℝ) :
    (match r with
      | some rt => if rt < m then (0.6 : ℝ) else 1
      | none => 1) = 0.6 ∨
    (match r with
      | some rt => if rt < m then (0.6 : ℝ) else 1
      | none => 1) = 1 := by
  match r with
  | none => right; rfl
  | some rt =>
    by_cases h : rt < m
    · left; simp [h]
    · right; simp [h]

end Scoring

namespace GClient

theorem priceMatchBudget_bounds (place : Place) (lvls : List ℕ) (bl : Option (List ℕ)) :
    0 ≤ priceMatch place lvls bl ∧ priceMatch place lvls bl ≤ 1 := by
  rcases hE : priceEffective lvls bl with _ | e
  · simp [priceMatch, hE]
  · simp only [priceMatch, hE]
    split
    · norm_num
    · rcases Scoring.priceToLevel place.priceLevel with _ | lvl
      · norm_num
      · dsimp only
        split <;> norm_num

/-- `GClient.scorePlace`'s score component written out (definitional). -/
theorem scorePlaceBudget_fst (p : Place) (pr : Profile) (o : Option LatLng) :
    (scorePlace p pr o).1 =
      (0.30 * Scoring.keywordMatch p pr.keywords +
        0.15 * priceMatch p pr.priceLevels (budgetToAllowedLevels pr.maxBudget) +
        0.30 * Scoring.qualityScore p.rating p.userRatingCount +
        0.15 * Scoring.distanceScore (Scoring.haversineKm o p.location) pr.maxDistanceKm +
        0.10 * Scoring.openScore p.openNow pr.requireOpen) *
      (match p.rating with
        | some rt => if rt < pr.minRating then (0.6 : ℝ) else 1
        | none => 1) := rfl

end GClient

/-! ## Claims -/

/-- C1: for every candidate satisfying the §3 data model (rating in `[0,5]`
or absent, non-negative integer review count, coordinates or null), every
profile satisfying §3 (price levels integers in `[0,4]`, `minRating ≥ 0`,
`maxDistanceKm > 0`) and every origin, the score returned by `scorePlace`
satisfies `0 ≤ score ≤ 1` — both for the `scoring.js` aggregator and for the
`googleClient.js` one (which also reads `maxBudget`). -/
theorem C1_score_bounds (place : Place) (profile : Profile) (origin : Option LatLng)
    (hrating : ∀ r ∈ place.rating, 0 ≤ r ∧ r ≤ 5)
    (hlvls : ∀ l ∈ profile.priceLevels, l ≤ 4)
    (hminR : 0 ≤ profile.minRating)
    (hmaxD : 0 < profile.maxDistanceKm) :
    (0 ≤ (Scoring.scorePlace place profile origin).1 ∧
      (Scoring.scorePlace place profile origin).1 ≤ 1) ∧
    (0 ≤ (GClient.scorePlace place profile origin).1 ∧
      (GClient.scorePlace place profile origin).1 ≤ 1) := by
  constructor
  · rw [Scoring.scorePlace_fst]
    exact Scoring.weighted_score_bounds
      (Scoring.keywordMatch_bounds place profile.keywords)
      (Scoring.priceMatch_bounds place profile.priceLevels)
      (Scoring.qualityScore_bounds place.rating place.userRatingCount)
      (Scoring.distanceScore_bounds _ profile.maxDistanceKm)
      (Scoring.openScore_bounds place.openNow profile.requireOpen)
      (Scoring.ratingPenalty_cases place.rating profile.minRating)
  · rw [GClient.scorePlaceBudget_fst]
    exact Scoring.weighted_score_bounds
      (Scoring.keywordMatch_bounds place profile.keywords)
      (GClient.priceMatchBudget_bounds place profile.priceLevels _)
      (Scoring.qualityScore_bounds place.rating place.userRatingCount)
      (Scoring.distanceScore_bounds _ profile.maxDistanceKm)
      (Scoring.openScore_bounds place.openNow profile.requireOpen)
      (Scoring.ratingPenalty_cases place.rating profile.minRating)

/-- Witness for C1 at a concrete candidate/profile/origin. -/
theorem C1_score_bounds_witness :
    (∀ r ∈ (some (4.5 : ℝ)), 0 ≤ r ∧ r ≤ 5) ∧
    (∀ l ∈ [1, 2], l ≤ 4) ∧
    (0 : ℝ) ≤ 1 ∧ (0 : ℝ) < 3 ∧
    (0 ≤ (Scoring.scorePlace
        ⟨"w1", some "Taco Place", some 4.5, some 120, some "PRICE_LEVEL_MODERATE",
          some ⟨14.55, -90.73⟩, some true, ["restaurant"], some "restaurant",
          some "tacos", none, none⟩
        ⟨["tacos"], [1, 2], 1, true, 3, some ⟨80, some "GTQ"⟩⟩
        (some ⟨14.56, -90.74⟩)).1 ∧
      (Scoring.scorePlace
        ⟨"w1", some "Taco Place", some 4.5, some 120, some "PRICE_LEVEL_MODERATE",
          some ⟨14.55, -90.73⟩, some true, ["restaurant"], some "restaurant",
          some "tacos", none, none⟩
        ⟨["tacos"], [1, 2], 1, true, 3, some ⟨80, some "GTQ"⟩⟩
        (some ⟨14.56, -90.74⟩)).1 ≤ 1) ∧
    (0 ≤ (GClient.scorePlace
        ⟨"w1", some "Taco Place", some 4.5, some 120, some "PRICE_LEVEL_MODERATE",
          some ⟨14.55, -90.73⟩, some true, ["restaurant"], some "restaurant",
          some "tacos", none, none⟩
        ⟨["tacos"], [1, 2], 1, true, 3, some ⟨80, some "GTQ"⟩⟩
        (some ⟨14.56, -90.74⟩)).1 ∧
      (GClient.scorePlace
        ⟨"w1", some "Taco Place", some 4.5, some 120, some "PRICE_LEVEL_MODERATE",
          some ⟨14.55, -90.73⟩, some true, ["restaurant"], some "restaurant",
          some "tacos", none, none⟩
        ⟨["tacos"], [1, 2], 1, true, 3, some ⟨80, some "GTQ"⟩⟩
        (some ⟨14.56, -90.74⟩)).1 ≤ 1) := by
  refine ⟨?_, ?_, by norm_num, by norm_num, ?_⟩
  · intro r hr
    simp only [Option.mem_def, Option.some.injEq] at hr
    subst hr
    norm_num
  · intro l hl
    simp only [List.mem_cons, List.not_mem_nil, or_false] at hl
    rcases hl with h | h <;> subst h <;> norm_num
  · exact C1_score_bounds _ _ _
      (by intro r hr
          simp only [Option.mem_def, Option.some.injEq] at hr
          subst hr; norm_num)
      (by intro l hl
          simp only [List.mem_cons, List.not_mem_nil, or_false] at hl
          rcases hl with h | h <;> subst h <;> norm_num)
      (by norm_num) (by norm_num)

/-- C4: with the fixed profile (empty keywords, empty price levels, any
`minRating`, `requireOpen = true`, `maxDistanceKm = 3`, no budget), a
candidate whose rating, location, priceLevel and openNow are all null scores
exactly `0.30·0 + 0.15·1 + 0.30·0 + 0.15·0.6 + 0.10·0.6` (= 0.30), with no
rating penalty applied. -/
theorem C4_missing_data_neutrality (minRating : ℝ) :
    (Scoring.scorePlace nullPlace ⟨[], [], minRating, true, 3, none⟩ none).1 =
      0.30 * 0 + 0.15 * 1 + 0.30 * 0 + 0.15 * 0.6 + 0.10 * 0.6 := by
  rw [Scoring.scorePlace_fst]
  norm_num [nullPlace, Scoring.keywordMatch, Scoring.priceMatch, Scoring.qualityScore,
    Scoring.openScore, Scoring.distanceScore, Scoring.haversineKm]

/-- Counterexample to C6 as stated: with `maxDistanceKm = 0.2 > 0` and
`km = 0.25 ≥ maxDistanceKm`, the very-near plateau fires first and
`distanceScore` returns 1, not 0.1. -/
theorem C6_counterexample :
    (0 : ℝ) < 0.2 ∧ (0.2 : ℝ) ≤ 0.25 ∧
    Scoring.distanceScore (some 0.25) 0.2 = 1 ∧ (1 : ℝ) ≠ 0.1 := by
  refine ⟨by norm_num, by norm_num, ?_, by norm_num⟩
  unfold Scoring.distanceScore
  norm_num

/-- C6 amended: for every `maxDistanceKm > 0`, `distanceScore(0) = 1`; for
every `km ≥ maxDistanceKm` that is beyond the very-near plateau
(`km > 0.25`), the score is exactly the 0.1 floor; and the score of a known
distance is never 0. -/
theorem C6_amended_distance_floor (maxKm : ℝ) (hm : 0 < maxKm) :
    Scoring.distanceScore (some 0) maxKm = 1 ∧
    (∀ km : ℝ, maxKm ≤ km → 0.25 < km → Scoring.distanceScore (some km) maxKm = 0.1) ∧
    (∀ km : ℝ, Scoring.distanceScore (some km) maxKm ≠ 0) := by
  refine ⟨?_, ?_, ?_⟩
  · unfold Scoring.distanceScore
    norm_num
  · intro km h1 h2
    unfold Scoring.distanceScore
    dsimp only
    rw [if_neg (not_le.2 h2), if_pos h1]
  · intro km
    unfold Scoring.distanceScore
    dsimp only
    split
    · norm_num
    · split
      · norm_num
      · rename_i hc1 hc2
        push_neg at hc1 hc2
        have hq : km / maxKm < 1 := (div_lt_one hm).2 hc2
        have hq0 : 0 < km / maxKm := div_pos (by linarith) hm
        intro hcon
        nlinarith

/-- Witness for the amended C6 at `maxDistanceKm = 3`, `km = 4` and
`km = 2`. -/
theorem C6_amended_witness :
    (0 : ℝ) < 3 ∧ (3 : ℝ) ≤ 4 ∧ (0.25 : ℝ) < 4 ∧
    Scoring.distanceScore (some 0) 3 = 1 ∧
    Scoring.distanceScore (some 4) 3 = 0.1 ∧
    Scoring.distanceScore (some 2) 3 ≠ 0 := by
  refine ⟨by norm_num, by norm_num, by norm_num, ?_, ?_, ?_⟩
  · exact (C6_amended_distance_floor 3 (by norm_num)).1
  · exact (C6_amended_distance_floor 3 (by norm_num)).2.1 4 (by norm_num) (by norm_num)
  · exact (C6_amended_distance_floor 3 (by norm_num)).2.2 2

/-- C7: for a fixed `maxDistanceKm > 0`, the distance signal is monotonically
non-increasing in the distance: `0 ≤ km1 ≤ km2` implies
`distanceScore(km2) ≤ distanceScore(km1)`. -/
theorem C7_distance_monotone (maxKm km1 km2 : ℝ) (hm : 0 < maxKm) (h0 : 0 ≤ km1)
    (h12 : km1 ≤ km2) :
    Scoring.distanceScore (some km2) maxKm ≤ Scoring.distanceScore (some km1) maxKm := by
  unfold Scoring.distanceScore
  dsimp only
  rcases le_or_lt km2 0.25 with hA2 | hA2
  · rw [if_pos hA2, if_pos (le_trans h12 hA2)]
  · rw [if_neg (not_le.2 hA2)]
    rcases le_or_lt maxKm km2 with hB2 | hB2
    · rw [if_pos hB2]
      rcases le_or_lt km1 0.25 with hA1 | hA1
      · rw [if_pos hA1]; norm_num
      · rw [if_neg (not_le.2 hA1)]
        rcases le_or_lt maxKm km1 with hB1 | hB1
        · rw [if_pos hB1]
        · rw [if_neg (not_le.2 hB1)]
          have hq : km1 / maxKm < 1 := (div_lt_one hm).2 hB1
          nlinarith
    · rw [if_neg (not_le.2 hB2)]
      rcases le_or_lt km1 0.25 with hA1 | hA1
      · rw [if_pos hA1]
        have hq : 0 < km2 / maxKm := div_pos (by linarith) hm
        nlinarith
      · rw [if_neg (not_le.2 hA1), if_neg (not_le.2 (lt_of_le_of_lt h12 hB2))]
        have hq : km1 / maxKm ≤ km2 / maxKm := by gcongr
        linarith

/-- Witness for C7 at `maxKm = 3`, `km1 = 1`, `km2 = 2`. -/
theorem C7_distance_monotone_witness :
    (0 : ℝ) < 3 ∧ (0 : ℝ) ≤ 1 ∧ (1 : ℝ) ≤ 2 ∧
    Scoring.distanceScore (some 2) 3 ≤ Scoring.distanceScore (some 1) 3 := by
  exact ⟨by norm_num, by norm_num, by norm_num,
    C7_distance_monotone 3 1 2 (by norm_num) (by norm_num) (by norm_num)⟩


/-! ## Sorting lemmas for the rank selector -/

namespace Scoring

theorem insertDesc_chain_cons (x : ScoredPlace) :
    ∀ (l : List ScoredPlace) (z : ScoredPlace),
      List.Chain' (fun a b => b.score ≤ a.score) (z :: l) → x.score < z.score →
      List.Chain' (fun a b => b.score ≤ a.score) (z :: insertDesc x l) := by
  intro l
  induction l with
  | nil =>
    intro z _ hlt
    simp [insertDesc, le_of_lt hlt]
  | cons y ys ih =>
    intro z hch hlt
    rw [List.chain'_cons] at hch
    obtain ⟨hzy, hch'⟩ := hch
    by_cases hxy : y.score ≤ x.score
    · simp only [insertDesc, if_pos hxy]
      rw [List.chain'_cons, List.chain'_cons]
      exact ⟨le_of_lt hlt, hxy, hch'⟩
    · simp only [insertDesc, if_neg hxy]
      rw [List.chain'_cons]
      exact ⟨hzy, ih y hch' (not_le.1 hxy)⟩

theorem insertDesc_chain (x : ScoredPlace) (l : List ScoredPlace)
    (h : List.Chain' (fun a b => b.score ≤ a.score) l) :
    List.Chain' (fun a b => b.score ≤ a.score) (insertDesc x l) := by
  cases l with
  | nil => simp [insertDesc]
  | cons y ys =>
    by_cases hxy : y.score ≤ x.score
    · simp only [insertDesc, if_pos hxy]
      rw [List.chain'_cons]
      exact ⟨hxy, h⟩
    · simp only [insertDesc, if_neg hxy]
      exact insertDesc_chain_cons x ys y h (not_le.1 hxy)

theorem sortByScoreDesc_chain :
    ∀ l : List ScoredPlace,
      List.Chain' (fun a b => b.score ≤ a.score) (sortByScoreDesc l)
  | [] => by simp [sortByScoreDesc]
  | x :: xs => insertDesc_chain x _ (sortByScoreDesc_chain xs)

end Scoring

theorem atScore_cons (s : ℝ) (x : ScoredPlace) (l : List ScoredPlace) :
    atScore s (x :: l) = if x.score = s then x :: atScore s l else atScore s l := by
  by_cases hxs : x.score = s <;> simp [atScore, List.filter_cons, hxs]

theorem atScore_insertDesc (s : ℝ) (x : ScoredPlace) :
    ∀ l : List ScoredPlace,
      atScore s (Scoring.insertDesc x l) =
        if x.score = s then x :: atScore s l else atScore s l := by
  intro l
  induction l with
  | nil =>
    rw [show Scoring.insertDesc x [] = [x] from rfl, atScore_cons]
  | cons y ys ih =>
    by_cases hxy : y.score ≤ x.score
    · rw [show Scoring.insertDesc x (y :: ys) =
          if y.score ≤ x.score then x :: y :: ys else y :: Scoring.insertDesc x ys from rfl,
        if_pos hxy, atScore_cons]
    · rw [show Scoring.insertDesc x (y :: ys) =
          if y.score ≤ x.score then x :: y :: ys else y :: Scoring.insertDesc x ys from rfl,
        if_neg hxy, atScore_cons, ih, atScore_cons]
      by_cases hys : y.score = s
      · have hxs : ¬ x.score = s := fun hx => hxy (le_of_eq (hys.trans hx.symm))
        rw [if_pos hys, if_neg hxs, if_neg hxs, if_pos hys]
      · rw [if_neg hys, if_neg hys]

theorem atScore_sortByScoreDesc (s : ℝ) :
    ∀ l : List ScoredPlace, atScore s (Scoring.sortByScoreDesc l) = atScore s l := by
  intro l
  induction l with
  | nil => rfl
  | cons x xs ih =>
    rw [show Scoring.sortByScoreDesc (x :: xs) =
        Scoring.insertDesc x (Scoring.sortByScoreDesc xs) from rfl,
      atScore_insertDesc, ih, atScore_cons]

/-- C3: for every call to `rankAndExplain`, the returned items are sorted by
score in descending order (no adjacent pair increases), and candidates with
equal scores retain their relative input order: for every score value, the
items carrying it form a sublist (in order) of the scored input sequence. -/
theorem C3_rank_sorted_stable (candidates : List Place) (profile : Profile)
    (origin : Option LatLng) (topK : JNum) :
    List.Chain' (fun a b => b.score ≤ a.score)
        (Scoring.rankAndExplain candidates profile origin topK) ∧
    ∀ s : ℝ,
      List.Sublist (atScore s (Scoring.rankAndExplain candidates profile origin topK))
        (atScore s (Scoring.scoredList candidates profile origin)) := by
  constructor
  · exact List.Chain'.take (Scoring.sortByScoreDesc_chain _) _
  · intro s
    have h1 : List.Sublist
        (atScore s (Scoring.rankAndExplain candidates profile origin topK))
        (atScore s (Scoring.sortByScoreDesc (Scoring.scoredList candidates profile origin))) :=
      List.Sublist.filter _ (List.take_sublist _ _)
    rw [atScore_sortByScoreDesc] at h1
    exact h1

/-- C8: `haversineKm` is symmetric in its two (non-null) endpoints, and the
distance from a point to itself is exactly 0 (exact in the real-number
model, hence within any floating-point epsilon). -/
theorem C8_haversine_symm_zero (a b : LatLng) :
    Scoring.haversineKm (some a) (some b) = Scoring.haversineKm (some b) (some a) ∧
    Scoring.haversineKm (some a) (some a) = some 0 := by
  constructor
  · unfold Scoring.haversineKm
    simp only [Option.some.injEq]
    have e1 : (a.lat - b.lat) * Real.pi / 180 / 2 =
        -((b.lat - a.lat) * Real.pi / 180 / 2) := by ring
    have e2 : (a.lng - b.lng) * Real.pi / 180 / 2 =
        -((b.lng - a.lng) * Real.pi / 180 / 2) := by ring
    rw [e1, e2, Real.sin_neg, Real.sin_neg]
    ring_nf
  · unfold Scoring.haversineKm
    simp only [Option.some.injEq]
    have e1 : (a.lat - a.lat) * Real.pi / 180 / 2 = 0 := by ring
    have e2 : (a.lng - a.lng) * Real.pi / 180 / 2 = 0 := by ring
    rw [e1, e2, Real.sin_zero]
    norm_num [Scoring.atan2]

/-- The budget tier table only ever produces `null` or one of the four
two-element level lists — in particular never an empty list. -/
theorem budgetToAllowedLevels_shape (mb : Option Budget) :
    GClient.budgetToAllowedLevels mb = none ∨
      ∃ a b : ℕ, GClient.budgetToAllowedLevels mb = some [a, b] := by
  rcases mb with _ | bud
  · left; rfl
  · unfold GClient.budgetToAllowedLevels
    dsimp only
    split_ifs
    · left; rfl
    · right; exact ⟨0, 1, rfl⟩
    · right; exact ⟨1, 2, rfl⟩
    · right; exact ⟨2, 3, rfl⟩
    · right; exact ⟨3, 4, rfl⟩

/-- C5: the three-argument `priceMatch`, fed the budget levels produced by
`budgetToAllowedLevels`, computes exactly the spec's description
(`priceScoreSpec`): score from the effective allowed set — the intersection
of `priceLevels` (when non-empty) and the budget levels (when present) —
with 1 for no constraint or an empty effective set, and 0.5 / 1 / 0 by the
candidate's ordinal level otherwise. -/
theorem C5_price_effective_set (place : Place) (priceLevels : List ℕ) (mb : Option Budget) :
    GClient.priceMatch place priceLevels (GClient.budgetToAllowedLevels mb) =
      priceScoreSpec place priceLevels (GClient.budgetToAllowedLevels mb) := by
  rcases budgetToAllowedLevels_shape mb with h | ⟨a, b, h⟩ <;> rw [h] <;>
    rcases hpl : Scoring.priceToLevel place.priceLevel with _ | lvl <;>
      by_cases hp : priceLevels.isEmpty <;>
        simp [GClient.priceMatch, GClient.priceEffective, priceScoreSpec, hp, hpl]

/-- Counterexample to C2 as stated: `topK = NaN` is not a positive number,
yet `rank` does not raise `ValidationError` — the call succeeds (the guard
`typeof topK !== 'number' || topK <= 0` accepts `NaN` because `NaN <= 0` is
false). -/
theorem C2_counterexample :
    (∃ r, Ranking.rank (.arr []) none .missing (.num .nan) = .ok r) ∧
    ¬ topKPositiveNumber (.num .nan) := by
  constructor
  · exact ⟨⟨0, 0, []⟩, rfl⟩
  · intro h
    exact h

/-- C2 amended: `rank` raises `ValidationError` if and only if `candidates`
is not an array, or `origin` is present but not an object with numeric `lat`
and `lng`, or `topK` is a non-number or a number `≤ 0` — `NaN` is accepted,
since `NaN <= 0` is false (and a missing `topK` defaults to 10).  On failure
the call aborts whole: no `RankResult` is produced. -/
theorem C2_amended_validation_iff (c : Ranking.CandParam) (p : Option RawProfile)
    (o : Ranking.OriginParam) (k : Ranking.TopKParam) :
    (∃ e, Ranking.rank c p o k = .error e) ↔
      (c = .notArr ∨ ¬ originWellFormed o ∨ topKRejected k) := by
  rcases c with cs | _
  · rcases o with _ | ⟨la, ln⟩
    · rcases k with _ | k | _
      · simp [Ranking.rank, Ranking.assertCandidates, Ranking.normalizeOrigin,
          Ranking.checkTopK, originWellFormed, topKRejected]
      · rcases k with x | _
        · rcases le_or_lt x 0 with hx | hx
          · simp [Ranking.rank, Ranking.assertCandidates, Ranking.normalizeOrigin,
              Ranking.checkTopK, originWellFormed, topKRejected, hx]
          · simp [Ranking.rank, Ranking.assertCandidates, Ranking.normalizeOrigin,
              Ranking.checkTopK, originWellFormed, topKRejected, not_le.2 hx,
              not_le_of_lt hx]
        · simp [Ranking.rank, Ranking.assertCandidates, Ranking.normalizeOrigin,
            Ranking.checkTopK, originWellFormed, topKRejected]
      · simp [Ranking.rank, Ranking.assertCandidates, Ranking.normalizeOrigin,
          Ranking.checkTopK, originWellFormed, topKRejected]
    · rcases la with _ | la <;> rcases ln with _ | ln
      · simp [Ranking.rank, Ranking.assertCandidates, Ranking.normalizeOrigin,
          originWellFormed]
      · simp [Ranking.rank, Ranking.assertCandidates, Ranking.normalizeOrigin,
          originWellFormed]
      · simp [Ranking.rank, Ranking.assertCandidates, Ranking.normalizeOrigin,
          originWellFormed]
      · rcases k with _ | k | _
        · simp [Ranking.rank, Ranking.assertCandidates, Ranking.normalizeOrigin,
            Ranking.checkTopK, originWellFormed, topKRejected]
        · rcases k with x | _
          · rcases le_or_lt x 0 with hx | hx
            · simp [Ranking.rank, Ranking.assertCandidates, Ranking.normalizeOrigin,
                Ranking.checkTopK, originWellFormed, topKRejected, hx]
            · simp [Ranking.rank, Ranking.assertCandidates, Ranking.normalizeOrigin,
                Ranking.checkTopK, originWellFormed, topKRejected, not_le.2 hx,
                not_le_of_lt hx]
          · simp [Ranking.rank, Ranking.assertCandidates, Ranking.normalizeOrigin,
              Ranking.checkTopK, originWellFormed, topKRejected]
        · simp [Ranking.rank, Ranking.assertCandidates, Ranking.normalizeOrigin,
            Ranking.checkTopK, originWellFormed, topKRejected]
  · simp [Ranking.rank, Ranking.assertCandidates]

/-- C9: the output of the `ranking_rank` tool does not depend on
`profile.maxBudget`: two calls whose raw profiles differ only in `maxBudget`
return identical results (total, returned, items — scores and why strings
included), because `normalizeProfile` drops `maxBudget` and the scoring
module the tool delegates to never reads it. -/
theorem C9_budget_independence (c : Ranking.CandParam) (p : RawProfile)
    (o : Ranking.OriginParam) (k : Ranking.TopKParam) (mb1 mb2 : Option Budget) :
    Ranking.rank c (some { p with maxBudget := mb1 }) o k =
      Ranking.rank c (some { p with maxBudget := mb2 }) o k := rfl

/-- C10: with a valid candidates array, a valid origin and `topK = NaN`,
`rank` does not raise: it returns `total` = number of candidates,
`returned = 0` and `items = []`, because `NaN` passes the guard and
`slice(0, NaN)` keeps nothing. -/
theorem C10_nan_topk (cs : List Place) (p : RawProfile) (la ln : ℝ) :
    Ranking.rank (.arr cs) (some p) (.objP (some la) (some ln)) (.num .nan) =
      .ok ⟨cs.length, 0, []⟩ := rfl
